import Mathlib

/-!
Verification of the player-connection lifecycle engine of
`src/bot/parsers/connection_parser.py` (class `ConnectionLifecycleParser`).

The Python class keeps two per-instance dictionaries keyed by a server key
string: `server_counts` (two integers per key) and `player_states` (four sets
of player-identifier strings per key).  A log line is classified by trying
four compiled regular expressions in an `if / elif` chain; the regex engine
itself is external library code, so the shallow embedding takes the tuple of
`re.search` outcomes for the four patterns (`LineMatch`) as the input of
`parse_lifecycle_event`, and embeds all the control flow and state mutation
that the repository's own code performs on top of those outcomes.
-/

/-- Outcome of `re.search` for the `queue_join` pattern
`LogNet: Join request: ...Name=([^&\s]+)...(?:platformid=PS5:(\w+)|eosid=\|(\w+))`:
group 1 (the display name), group 2 (the PS5 id) and group 3 (the EOS id). -/
structure QueueJoinMatch where
  name : String
  ps5 : Option String
  eos : Option String
deriving DecidableEq

/-- The four `re.search` outcomes for one raw log line, in the order the
patterns are tried by `parse_lifecycle_event`: `queue_join`, `player_joined`
(group 1), `disconnect_post_join` (group 1) and `disconnect_pre_join`
(group 1).  `none` means the pattern did not match the line. -/
structure LineMatch where
  queue_join : Option QueueJoinMatch
  player_joined : Option String
  disconnect_post_join : Option String
  disconnect_pre_join : Option String
deriving DecidableEq

/-- The value of `self.player_states[server_key]`: four sets of player ids. -/
structure PlayerStates where
  players_queued : Finset String
  players_joined : Finset String
  players_disconnected_pre : Finset String
  players_disconnected_post : Finset String
deriving DecidableEq

/-- The value of `self.server_counts[server_key]`.  Python ints, so `Int`;
non-negativity is a property to prove, not a typing assumption. -/
structure ServerCounts where
  queue_count : Int
  player_count : Int
deriving DecidableEq

/-- Kind tag of the embed payload built by `_create_join_embed` /
`_create_leave_embed` (the `event_type` entry of the embed data dict). -/
inductive EventKind where
  | player_join
  | player_leave
deriving DecidableEq

/-- The notification payload assembled by `_create_join_embed` /
`_create_leave_embed` before it is handed to the external `EmbedFactory`
(the wall-clock `timestamp` entry is external input and is not modelled). -/
structure Notification where
  event_type : EventKind
  player_name : String
  player_id : String
  messages : List String
deriving DecidableEq

/-- The mutable state of one `ConnectionLifecycleParser` instance: the two
dictionaries `self.server_counts` and `self.player_states`, as partial maps
from server-key strings. -/
structure ParserState where
  server_counts : String → Option ServerCounts
  player_states : String → Option PlayerStates

/-- The empty per-server player-state record created by
`initialize_server_tracking`. -/
def emptyPlayerStates : PlayerStates :=
  { players_queued := ∅, players_joined := ∅,
    players_disconnected_pre := ∅, players_disconnected_post := ∅ }

/-- The zero counters created by `initialize_server_tracking`. -/
def zeroCounts : ServerCounts := { queue_count := 0, player_count := 0 }

/-- The state of a freshly constructed instance (`__init__`): both
dictionaries empty. -/
def initialState : ParserState :=
  { server_counts := fun _ => none, player_states := fun _ => none }

/-- Observed player-state record for a key; a key absent from the dictionary
is observationally the empty record (it denotes "no activity yet"). -/
def getStates (st : ParserState) (key : String) : PlayerStates :=
  (st.player_states key).getD emptyPlayerStates

/-- Observed counters for a key; an absent key is observationally zero. -/
def getCountsAt (st : ParserState) (key : String) : ServerCounts :=
  (st.server_counts key).getD zeroCounts

/-- Dictionary write `self.player_states[key] = ps`. -/
def setStates (st : ParserState) (key : String) (ps : PlayerStates) : ParserState :=
  { st with player_states := fun k => if k = key then some ps else st.player_states k }

/-- Dictionary write `self.server_counts[key] = c`. -/
def setCounts (st : ParserState) (key : String) (c : ServerCounts) : ParserState :=
  { st with server_counts := fun k => if k = key then some c else st.server_counts k }

/-- `initialize_server_tracking`: create zero counters and empty sets for a
key, separately for each dictionary, only where the key is absent. -/
def initialize_server_tracking (st : ParserState) (server_key : String) : ParserState :=
  { server_counts :=
      match st.server_counts server_key with
      | some _ => st.server_counts
      | none => fun k => if k = server_key then some zeroCounts else st.server_counts k,
    player_states :=
      match st.player_states server_key with
      | some _ => st.player_states
      | none => fun k => if k = server_key then some emptyPlayerStates else st.player_states k }

/-- The counter formulas of `_update_live_counts`:
`queue_count = max(0, jq - j2 - d2)` and `player_count = max(0, j2 - d1)`. -/
def compute_counts (states : PlayerStates) : ServerCounts :=
  let jq : Int := states.players_queued.card
  let j2 : Int := states.players_joined.card
  let d2 : Int := states.players_disconnected_pre.card
  let d1 : Int := states.players_disconnected_post.card
  { queue_count := max 0 (jq - j2 - d2), player_count := max 0 (j2 - d1) }

/-- `_update_live_counts(server_key)`: recompute both counters from the
current sets of the key and store them (the voice-channel rename it then
requests is an external side effect, not state of the core). -/
def _update_live_counts (st : ParserState) (server_key : String) : ParserState :=
  setCounts st server_key (compute_counts (getStates st server_key))

/-- Python `a or b` on two optional capture strings (`match.group(2) or
match.group(3)`): `a` unless `a` is `None` or the empty string. -/
def pyOr : Option String → Option String → Option String
  | some s, b => if s == "" then b else some s
  | none, b => b

/-- Python `name or player_id` with `name : Optional[str]`. -/
def pyOrStr : Option String → String → String
  | some s, b => if s == "" then b else s
  | none, b => b

/-- `_create_join_embed`: the join payload (before `EmbedFactory.build`). -/
def _create_join_embed (player_id : String) (player_name : Option String) : Notification :=
  let n := pyOrStr player_name player_id
  { event_type := EventKind.player_join, player_name := n, player_id := player_id,
    messages :=
      ["🎮 " ++ n ++ " joined the server!",
       "🌟 Welcome " ++ n ++ " to the battlefield!",
       "⚔️ " ++ n ++ " has entered the game!",
       "🎯 " ++ n ++ " is ready for action!"] }

/-- `_create_leave_embed`: the leave payload (before `EmbedFactory.build`). -/
def _create_leave_embed (player_id : String) (player_name : Option String) : Notification :=
  let n := pyOrStr player_name player_id
  { event_type := EventKind.player_leave, player_name := n, player_id := player_id,
    messages :=
      ["👋 " ++ n ++ " left the server",
       "🚪 " ++ n ++ " disconnected from the battlefield",
       "⏰ " ++ n ++ " has ended their session",
       "🔚 " ++ n ++ " signed off"] }

/-- `parse_lifecycle_event(line, server_key, guild_id)`, with the line given
by its four regex-search outcomes.  Mirrors the `if / elif` chain, the
`if player_id:` truthiness guard of the queue-join branch, the state-lookup
disambiguation of the two disconnect branches, and the early `return` of the
post-join-disconnect branch (which skips `_update_live_counts` on line 125).
Returns the new state and the optional notification payload. -/
def parse_lifecycle_event (st0 : ParserState) (m : LineMatch) (server_key : String) :
    ParserState × Option Notification :=
  let st := initialize_server_tracking st0 server_key
  match m.queue_join with
  | some qm =>
    match pyOr qm.ps5 qm.eos with
    | some pid =>
      if pid == "" then (st, none)
      else
        let states := getStates st server_key
        let st1 := setStates st server_key
          { states with players_queued := insert pid states.players_queued }
        (_update_live_counts st1 server_key, none)
    | none => (st, none)
  | none =>
    match m.player_joined with
    | some pid =>
      let states := getStates st server_key
      let st1 := setStates st server_key
        { states with players_joined := insert pid states.players_joined }
      (_update_live_counts st1 server_key, some (_create_join_embed pid none))
    | none =>
      match m.disconnect_post_join with
      | some pid =>
        let states := getStates st server_key
        if pid ∈ states.players_joined then
          let s1 := { states with
            players_disconnected_post := insert pid states.players_disconnected_post }
          (setStates st server_key s1, some (_create_leave_embed pid none))
        else if pid ∈ states.players_queued then
          let s1 := { states with
            players_disconnected_pre := insert pid states.players_disconnected_pre }
          (_update_live_counts (setStates st server_key s1) server_key, none)
        else (_update_live_counts st server_key, none)
      | none =>
        match m.disconnect_pre_join with
        | some pid =>
          let states := getStates st server_key
          if pid ∈ states.players_queued ∧ pid ∉ states.players_joined then
            let s1 := { states with
              players_disconnected_pre := insert pid states.players_disconnected_pre }
            (_update_live_counts (setStates st server_key s1) server_key, none)
          else (st, none)
        | none => (st, none)

/-- `get_live_counts(server_key)`: initialize if absent, return a snapshot of
the counters.  The (lazily initialized) post-call state is returned as well,
since the Python method mutates the instance on a never-seen key. -/
def get_live_counts (st : ParserState) (server_key : String) : ServerCounts × ParserState :=
  let st1 := initialize_server_tracking st server_key
  (getCountsAt st1 server_key, st1)

/-- `reset_server_counts(server_key)`: delete both dictionary entries for the
key if present (no error when absent). -/
def reset_server_counts (st : ParserState) (server_key : String) : ParserState :=
  { server_counts := fun k => if k = server_key then none else st.server_counts k,
    player_states := fun k => if k = server_key then none else st.player_states k }

/-- Per-key functional view of `parse_lifecycle_event`: given the observed
sets and counters of the addressed key, the branch structure of the method
yields these new sets, new counters and notification.  Proved equivalent to
the stateful definition in `parse_shape`; note the post-join-disconnect
branch keeps the old counters (the early `return` before line 125). -/
def parseStep (s : PlayerStates) (c : ServerCounts) (m : LineMatch) :
    PlayerStates × ServerCounts × Option Notification :=
  match m.queue_join with
  | some qm =>
    match pyOr qm.ps5 qm.eos with
    | some pid =>
      if pid == "" then (s, c, none)
      else
        let s1 := { s with players_queued := insert pid s.players_queued }
        (s1, compute_counts s1, none)
    | none => (s, c, none)
  | none =>
    match m.player_joined with
    | some pid =>
      let s1 := { s with players_joined := insert pid s.players_joined }
      (s1, compute_counts s1, some (_create_join_embed pid none))
    | none =>
      match m.disconnect_post_join with
      | some pid =>
        if pid ∈ s.players_joined then
          let s1 := { s with
            players_disconnected_post := insert pid s.players_disconnected_post }
          (s1, c, some (_create_leave_embed pid none))
        else if pid ∈ s.players_queued then
          let s1 := { s with
            players_disconnected_pre := insert pid s.players_disconnected_pre }
          (s1, compute_counts s1, none)
        else (s, compute_counts s, none)
      | none =>
        match m.disconnect_pre_join with
        | some pid =>
          if pid ∈ s.players_queued ∧ pid ∉ s.players_joined then
            let s1 := { s with
              players_disconnected_pre := insert pid s.players_disconnected_pre }
            (s1, compute_counts s1, none)
          else (s, c, none)
        | none => (s, c, none)

/-- One external call on the instance: a log line fed to
`parse_lifecycle_event`, a `reset_server_counts`, or a `get_live_counts`. -/
inductive Op where
  | parseLine : LineMatch → String → Op
  | reset : String → Op
  | readCounts : String → Op
deriving DecidableEq

/-- Apply one call to the instance state. -/
def applyOp (st : ParserState) : Op → ParserState
  | Op.parseLine m key => (parse_lifecycle_event st m key).1
  | Op.reset key => reset_server_counts st key
  | Op.readCounts key => (get_live_counts st key).2

/-- Run a call sequence from an arbitrary state. -/
def runOpsFrom (st : ParserState) (ops : List Op) : ParserState :=
  ops.foldl applyOp st

/-- Run a call sequence on a freshly constructed instance. -/
def runOps (ops : List Op) : ParserState :=
  runOpsFrom initialState ops

/-- Fieldwise inclusion of the four player sets. -/
def statesSubset (a b : PlayerStates) : Prop :=
  a.players_queued ⊆ b.players_queued ∧
  a.players_joined ⊆ b.players_joined ∧
  a.players_disconnected_pre ⊆ b.players_disconnected_pre ∧
  a.players_disconnected_post ⊆ b.players_disconnected_post

/-- Both counters non-negative. -/
def countsOK (c : ServerCounts) : Prop :=
  0 ≤ c.queue_count ∧ 0 ≤ c.player_count

/-- No one of the four patterns matched the line. -/
def lineNoMatch (m : LineMatch) : Bool :=
  m.queue_join.isNone && m.player_joined.isNone &&
    m.disconnect_post_join.isNone && m.disconnect_pre_join.isNone

/-- The first pattern that matched yielded an empty (Python-falsy) player
identifier; for the queue-join pattern the identifier is
`group(2) or group(3)`. -/
def extractedIdFalsy (m : LineMatch) : Bool :=
  match m.queue_join with
  | some qm =>
    match pyOr qm.ps5 qm.eos with
    | some pid => pid == ""
    | none => true
  | none =>
    match m.player_joined with
    | some pid => pid == ""
    | none =>
      match m.disconnect_post_join with
      | some pid => pid == ""
      | none =>
        match m.disconnect_pre_join with
        | some pid => pid == ""
        | none => false

/-- Facts about the capture groups that the four compiled regexes guarantee
for any real line: a `\w+` or `[^&\s]+` capture is non-empty when its
pattern matches, and the queue-join alternation
`(?:platformid=PS5:(\w+)|eosid=\|(\w+))` binds exactly one of the two
identifier groups. -/
def regexWF (m : LineMatch) : Bool :=
  (match m.queue_join with
   | none => true
   | some qm =>
     !(qm.name == "") &&
       ((match qm.ps5 with
         | some s => !(s == "") && qm.eos == none
         | none => false) ||
        (match qm.eos with
         | some s => !(s == "") && qm.ps5 == none
         | none => false))) &&
  (match m.player_joined with | none => true | some s => !(s == "")) &&
  (match m.disconnect_post_join with | none => true | some s => !(s == "")) &&
  (match m.disconnect_pre_join with | none => true | some s => !(s == ""))

theorem getStates_setStates_self (st : ParserState) (key : String) (ps : PlayerStates) :
    getStates (setStates st key ps) key = ps := by
  simp [getStates, setStates]

theorem getStates_setStates_of_ne (st : ParserState) (key : String) (ps : PlayerStates)
    (k : String) (h : k ≠ key) : getStates (setStates st key ps) k = getStates st k := by
  simp [getStates, setStates, h]

theorem getCountsAt_setStates (st : ParserState) (key : String) (ps : PlayerStates)
    (k : String) : getCountsAt (setStates st key ps) k = getCountsAt st k := rfl

theorem getStates_setCounts (st : ParserState) (key : String) (c : ServerCounts)
    (k : String) : getStates (setCounts st key c) k = getStates st k := rfl

theorem getCountsAt_setCounts_self (st : ParserState) (key : String) (c : ServerCounts) :
    getCountsAt (setCounts st key c) key = c := by
  simp [getCountsAt, setCounts]

theorem getCountsAt_setCounts_of_ne (st : ParserState) (key : String) (c : ServerCounts)
    (k : String) (h : k ≠ key) : getCountsAt (setCounts st key c) k = getCountsAt st k := by
  simp [getCountsAt, setCounts, h]

theorem getStates_init (st : ParserState) (key k : String) :
    getStates (initialize_server_tracking st key) k = getStates st k := by
  unfold getStates initialize_server_tracking
  rcases hp : st.player_states key with _ | p
  · simp only [hp]
    by_cases hk : k = key
    · subst hk; simp [hp, emptyPlayerStates]
    · simp [hk]
  · simp [hp]

theorem getCountsAt_init (st : ParserState) (key k : String) :
    getCountsAt (initialize_server_tracking st key) k = getCountsAt st k := by
  unfold getCountsAt initialize_server_tracking
  rcases hc : st.server_counts key with _ | c
  · simp only [hc]
    by_cases hk : k = key
    · subst hk; simp [hc, zeroCounts]
    · simp [hk]
  · simp [hc]

theorem player_states_init_self (st : ParserState) (key : String) :
    (initialize_server_tracking st key).player_states key = some (getStates st key) := by
  unfold getStates initialize_server_tracking
  rcases hp : st.player_states key with _ | p <;> simp [hp]

theorem server_counts_init_self (st : ParserState) (key : String) :
    (initialize_server_tracking st key).server_counts key = some (getCountsAt st key) := by
  unfold getCountsAt initialize_server_tracking
  rcases hc : st.server_counts key with _ | c <;> simp [hc]

theorem player_states_init_of_ne (st : ParserState) (key k : String) (h : k ≠ key) :
    (initialize_server_tracking st key).player_states k = st.player_states k := by
  unfold initialize_server_tracking
  rcases hp : st.player_states key with _ | p <;> simp [hp, h]

theorem server_counts_init_of_ne (st : ParserState) (key k : String) (h : k ≠ key) :
    (initialize_server_tracking st key).server_counts k = st.server_counts k := by
  unfold initialize_server_tracking
  rcases hc : st.server_counts key with _ | c <;> simp [hc, h]

theorem getStates_update (st : ParserState) (key k : String) :
    getStates (_update_live_counts st key) k = getStates st k := rfl

theorem getCountsAt_update_self (st : ParserState) (key : String) :
    getCountsAt (_update_live_counts st key) key = compute_counts (getStates st key) := by
  simp [_update_live_counts, getCountsAt_setCounts_self]

theorem getCountsAt_update_of_ne (st : ParserState) (key k : String) (h : k ≠ key) :
    getCountsAt (_update_live_counts st key) k = getCountsAt st k := by
  simp [_update_live_counts, getCountsAt_setCounts_of_ne _ _ _ _ h]

theorem player_states_setStates_self (st : ParserState) (key : String) (ps : PlayerStates) :
    (setStates st key ps).player_states key = some ps := by
  simp [setStates]

theorem player_states_setStates_of_ne (st : ParserState) (key : String) (ps : PlayerStates)
    (k : String) (h : k ≠ key) : (setStates st key ps).player_states k = st.player_states k := by
  simp [setStates, h]

theorem server_counts_setStates (st : ParserState) (key : String) (ps : PlayerStates) :
    (setStates st key ps).server_counts = st.server_counts := rfl

theorem player_states_setCounts (st : ParserState) (key : String) (c : ServerCounts) :
    (setCounts st key c).player_states = st.player_states := rfl

theorem server_counts_setCounts_self (st : ParserState) (key : String) (c : ServerCounts) :
    (setCounts st key c).server_counts key = some c := by
  simp [setCounts]

theorem server_counts_setCounts_of_ne (st : ParserState) (key : String) (c : ServerCounts)
    (k : String) (h : k ≠ key) : (setCounts st key c).server_counts k = st.server_counts k := by
  simp [setCounts, h]

/-- Central equivalence: `parse_lifecycle_event` acts on the addressed key
exactly as the pure per-key step `parseStep` on the observed sets and
counters, returns the same notification, leaves both dictionary entries for
the key present, and does not touch any other key. -/
theorem parse_shape (st : ParserState) (m : LineMatch) (key : String) :
    getStates ((parse_lifecycle_event st m key).1) key
      = (parseStep (getStates st key) (getCountsAt st key) m).1 ∧
    getCountsAt ((parse_lifecycle_event st m key).1) key
      = (parseStep (getStates st key) (getCountsAt st key) m).2.1 ∧
    (parse_lifecycle_event st m key).2
      = (parseStep (getStates st key) (getCountsAt st key) m).2.2 ∧
    ((parse_lifecycle_event st m key).1).player_states key
      = some (getStates ((parse_lifecycle_event st m key).1) key) ∧
    ((parse_lifecycle_event st m key).1).server_counts key
      = some (getCountsAt ((parse_lifecycle_event st m key).1) key) ∧
    ∀ k, k ≠ key →
      ((parse_lifecycle_event st m key).1).player_states k = st.player_states k ∧
      ((parse_lifecycle_event st m key).1).server_counts k = st.server_counts k := by
  obtain ⟨qj, pj, dpost, dpre⟩ := m
  refine ⟨?_, ?_, ?_, ?_, ?_, fun k hk => ⟨?_, ?_⟩⟩ <;>
    rcases qj with _ | ⟨qname, _ | s2, _ | s3⟩ <;>
    rcases pj with _ | pjid <;>
    rcases dpost with _ | dpid <;>
    rcases dpre with _ | rpid <;>
    simp only [parse_lifecycle_event, parseStep, pyOr] <;>
    (try split_ifs) <;>
    (try simp_all [_update_live_counts, getStates_setStates_self, getCountsAt_setStates,
      getStates_setCounts, getCountsAt_setCounts_self, getStates_init, getCountsAt_init,
      player_states_init_self, server_counts_init_self, player_states_setStates_self,
      server_counts_setCounts_self, player_states_setCounts, server_counts_setStates,
      player_states_init_of_ne, server_counts_init_of_ne, player_states_setStates_of_ne,
      server_counts_setCounts_of_ne, getStates_setStates_of_ne, getCountsAt_setCounts_of_ne]) <;>
    (try split_ifs) <;>
    (try simp_all [_update_live_counts, getStates_setStates_self, getCountsAt_setStates,
      getStates_setCounts, getCountsAt_setCounts_self, getStates_init, getCountsAt_init,
      player_states_init_self, server_counts_init_self, player_states_setStates_self,
      server_counts_setCounts_self, player_states_setCounts, server_counts_setStates,
      player_states_init_of_ne, server_counts_init_of_ne, player_states_setStates_of_ne,
      server_counts_setCounts_of_ne, getStates_setStates_of_ne, getCountsAt_setCounts_of_ne])

theorem parse_states_eq (st : ParserState) (m : LineMatch) (key : String) :
    getStates ((parse_lifecycle_event st m key).1) key
      = (parseStep (getStates st key) (getCountsAt st key) m).1 :=
  (parse_shape st m key).1

theorem parse_counts_eq (st : ParserState) (m : LineMatch) (key : String) :
    getCountsAt ((parse_lifecycle_event st m key).1) key
      = (parseStep (getStates st key) (getCountsAt st key) m).2.1 :=
  (parse_shape st m key).2.1

theorem parse_snd_eq (st : ParserState) (m : LineMatch) (key : String) :
    (parse_lifecycle_event st m key).2
      = (parseStep (getStates st key) (getCountsAt st key) m).2.2 :=
  (parse_shape st m key).2.2.1

theorem parse_present_states (st : ParserState) (m : LineMatch) (key : String) :
    ((parse_lifecycle_event st m key).1).player_states key
      = some (getStates ((parse_lifecycle_event st m key).1) key) :=
  (parse_shape st m key).2.2.2.1

theorem parse_present_counts (st : ParserState) (m : LineMatch) (key : String) :
    ((parse_lifecycle_event st m key).1).server_counts key
      = some (getCountsAt ((parse_lifecycle_event st m key).1) key) :=
  (parse_shape st m key).2.2.2.2.1

theorem parse_frame (st : ParserState) (m : LineMatch) (key k : String) (hk : k ≠ key) :
    ((parse_lifecycle_event st m key).1).player_states k = st.player_states k ∧
    ((parse_lifecycle_event st m key).1).server_counts k = st.server_counts k :=
  (parse_shape st m key).2.2.2.2.2 k hk

theorem statesSubset_refl (a : PlayerStates) : statesSubset a a :=
  ⟨subset_rfl, subset_rfl, subset_rfl, subset_rfl⟩

theorem statesSubset_trans (a b c : PlayerStates)
    (h1 : statesSubset a b) (h2 : statesSubset b c) : statesSubset a c :=
  ⟨h1.1.trans h2.1, h1.2.1.trans h2.2.1, h1.2.2.1.trans h2.2.2.1, h1.2.2.2.trans h2.2.2.2⟩

/-- The pure step never removes a player from any of the four sets. -/
theorem step_mono (s : PlayerStates) (c : ServerCounts) (m : LineMatch) :
    statesSubset s (parseStep s c m).1 := by
  obtain ⟨qj, pj, dpost, dpre⟩ := m
  rcases qj with _ | ⟨qn, _ | s2, _ | s3⟩ <;> rcases pj with _ | pjid <;>
    rcases dpost with _ | dpid <;> rcases dpre with _ | rpid <;>
    simp only [parseStep, pyOr] <;> (try split_ifs) <;>
    (try simp_all [statesSubset, Finset.subset_insert, Finset.Subset.refl]) <;>
    (try split_ifs) <;>
    (try simp_all [statesSubset, Finset.subset_insert, Finset.Subset.refl])

theorem compute_counts_ok (s : PlayerStates) : countsOK (compute_counts s) :=
  ⟨le_max_left _ _, le_max_left _ _⟩

/-- The pure step only ever stores non-negative counters. -/
theorem step_countsOK (s : PlayerStates) (c : ServerCounts) (m : LineMatch)
    (h : countsOK c) : countsOK (parseStep s c m).2.1 := by
  obtain ⟨qj, pj, dpost, dpre⟩ := m
  rcases qj with _ | ⟨qn, _ | s2, _ | s3⟩ <;> rcases pj with _ | pjid <;>
    rcases dpost with _ | dpid <;> rcases dpre with _ | rpid <;>
    simp only [parseStep, pyOr] <;> (try split_ifs) <;>
    (try dsimp only) <;> (try split_ifs) <;>
    first
      | exact h
      | exact compute_counts_ok _

/-- Applying the same step twice yields the sets and counters of the first
application. -/
theorem step_idem (s : PlayerStates) (c : ServerCounts) (m : LineMatch) :
    (parseStep (parseStep s c m).1 (parseStep s c m).2.1 m).1 = (parseStep s c m).1 ∧
    (parseStep (parseStep s c m).1 (parseStep s c m).2.1 m).2.1 = (parseStep s c m).2.1 := by
  obtain ⟨qj, pj, dpost, dpre⟩ := m
  rcases qj with _ | ⟨qn, _ | s2, _ | s3⟩ <;> rcases pj with _ | pjid <;>
    rcases dpost with _ | dpid <;> rcases dpre with _ | rpid <;>
    simp only [parseStep, pyOr] <;> (try split_ifs) <;>
    (try simp_all [Finset.insert_idem, Finset.mem_insert])

theorem parserStateExt (a b : ParserState)
    (h1 : a.server_counts = b.server_counts) (h2 : a.player_states = b.player_states) :
    a = b := by
  cases a; cases b; cases h1; cases h2; rfl

theorem getStates_reset_self (st : ParserState) (key : String) :
    getStates (reset_server_counts st key) key = emptyPlayerStates := by
  simp [getStates, reset_server_counts]

theorem getCountsAt_reset_self (st : ParserState) (key : String) :
    getCountsAt (reset_server_counts st key) key = zeroCounts := by
  simp [getCountsAt, reset_server_counts]

theorem player_states_reset_of_ne (st : ParserState) (key k : String) (h : k ≠ key) :
    (reset_server_counts st key).player_states k = st.player_states k := by
  simp [reset_server_counts, h]

theorem server_counts_reset_of_ne (st : ParserState) (key k : String) (h : k ≠ key) :
    (reset_server_counts st key).server_counts k = st.server_counts k := by
  simp [reset_server_counts, h]

theorem get_live_counts_fst (st : ParserState) (key : String) :
    (get_live_counts st key).1 = getCountsAt st key := by
  simp [get_live_counts, getCountsAt_init]

theorem getStates_get_live_counts (st : ParserState) (key k : String) :
    getStates (get_live_counts st key).2 k = getStates st k := by
  simp [get_live_counts, getStates_init]

theorem getCountsAt_get_live_counts (st : ParserState) (key k : String) :
    getCountsAt (get_live_counts st key).2 k = getCountsAt st k := by
  simp [get_live_counts, getCountsAt_init]

theorem getCountsAt_eq_of_raw (a b : ParserState) (k : String)
    (h : a.server_counts k = b.server_counts k) : getCountsAt a k = getCountsAt b k := by
  simp [getCountsAt, h]

theorem getStates_eq_of_raw (a b : ParserState) (k : String)
    (h : a.player_states k = b.player_states k) : getStates a k = getStates b k := by
  simp [getStates, h]

theorem reset_initialState (key : String) :
    reset_server_counts initialState key = initialState := by
  apply parserStateExt <;> funext k <;> simp [reset_server_counts, initialState]

/-- Search outcomes of an EOS-tagged queue-join line for a player. -/
def lineQueueJoin (nm pid : String) : LineMatch :=
  { queue_join := some { name := nm, ps5 := none, eos := some pid },
    player_joined := none, disconnect_post_join := none, disconnect_pre_join := none }

/-- Search outcomes of a successful-registration line for a player. -/
def linePlayerJoined (pid : String) : LineMatch :=
  { queue_join := none, player_joined := some pid,
    disconnect_post_join := none, disconnect_pre_join := none }

/-- Search outcomes of an EOS-tagged channel-close line: such a line matches
both disconnect regexes (pattern 4 is a superset of pattern 3). -/
def lineDisconnect (pid : String) : LineMatch :=
  { queue_join := none, player_joined := none,
    disconnect_post_join := some pid, disconnect_pre_join := some pid }

/-- Search outcomes of a PS5-tagged channel-close line: only the looser
pattern 4 matches (pattern 3 requires the EOS tag). -/
def lineDisconnectPS5 (pid : String) : LineMatch :=
  { queue_join := none, player_joined := none,
    disconnect_post_join := none, disconnect_pre_join := some pid }

/-- State after QueueJoin(A), QueueJoin(B), PlayerJoined(A) from a fresh
instance — the first checkpoint of the spec's concrete scenario. -/
def c1State3 : ParserState :=
  (parse_lifecycle_event
    ((parse_lifecycle_event
      ((parse_lifecycle_event initialState (lineQueueJoin "NameA" "A") "g1_s1").1)
      (lineQueueJoin "NameB" "B") "g1_s1").1)
    (linePlayerJoined "A") "g1_s1").1

/-- Then a channel-close line for A (DisconnectPostJoin, since A joined). -/
def c1State4 : ParserState :=
  (parse_lifecycle_event c1State3 (lineDisconnect "A") "g1_s1").1

/-- Then a channel-close line for B (DisconnectPreJoin, since B only queued). -/
def c1State5 : ParserState :=
  (parse_lifecycle_event c1State4 (lineDisconnect "B") "g1_s1").1

/-- C1: evaluation of the code on the spec's concrete scenario.  After
QueueJoin(A), QueueJoin(B), PlayerJoined(A) the stored counters are (1,1) as
claimed; the DisconnectPostJoin(A) event does add A to
`players_disconnected_post`, but the stored counters remain (1,1) instead of
the claimed (1,0) — the formula value over the updated sets is (1,0), yet the
`return` of the post-join-disconnect branch exits `parse_lifecycle_event`
before the `_update_live_counts` call on line 125, so the stored counters are
stale.  The final DisconnectPreJoin(B) recomputes and reaches (0,0) as
claimed. -/
theorem c1_post_join_disconnect_leaves_stale_counts :
    getCountsAt c1State3 "g1_s1" = { queue_count := 1, player_count := 1 } ∧
    (getStates c1State4 "g1_s1").players_disconnected_post = {"A"} ∧
    getCountsAt c1State4 "g1_s1" = { queue_count := 1, player_count := 1 } ∧
    compute_counts (getStates c1State4 "g1_s1") = { queue_count := 1, player_count := 0 } ∧
    getCountsAt c1State5 "g1_s1" = { queue_count := 0, player_count := 0 } := by
  decide

/-- C2: for a line whose first matching pattern is the pattern-3 disconnect
regex with extracted identifier P: if P is in `players_joined` the event is a
DisconnectPostJoin (P is added to `players_disconnected_post`); otherwise if
P is in `players_queued` it is a DisconnectPreJoin (P is added to
`players_disconnected_pre`); otherwise no set changes and no notification is
produced. -/
theorem c2_pattern3_disambiguation (st : ParserState) (m : LineMatch) (key P : String)
    (h1 : m.queue_join = none) (h2 : m.player_joined = none)
    (h3 : m.disconnect_post_join = some P) :
    (P ∈ (getStates st key).players_joined →
      getStates ((parse_lifecycle_event st m key).1) key =
        { getStates st key with
            players_disconnected_post := insert P (getStates st key).players_disconnected_post }) ∧
    (P ∉ (getStates st key).players_joined → P ∈ (getStates st key).players_queued →
      getStates ((parse_lifecycle_event st m key).1) key =
        { getStates st key with
            players_disconnected_pre := insert P (getStates st key).players_disconnected_pre }) ∧
    (P ∉ (getStates st key).players_joined → P ∉ (getStates st key).players_queued →
      getStates ((parse_lifecycle_event st m key).1) key = getStates st key ∧
      (parse_lifecycle_event st m key).2 = none) := by
  refine ⟨fun hj => ?_, fun hnj hq => ?_, fun hnj hnq => ⟨?_, ?_⟩⟩
  · rw [parse_states_eq]; simp [parseStep, h1, h2, h3, hj]
  · rw [parse_states_eq]; simp [parseStep, h1, h2, h3, hnj, hq]
  · rw [parse_states_eq]; simp [parseStep, h1, h2, h3, hnj, hnq]
  · rw [parse_snd_eq]; simp [parseStep, h1, h2, h3, hnj, hnq]

/-- C2 witness: with only QueueJoin(A) applied a channel-close line for A is
a DisconnectPreJoin, and with QueueJoin(A) then PlayerJoined(A) applied the
same line is a DisconnectPostJoin. -/
theorem c2_pattern3_disambiguation_witness :
    (getStates ((parse_lifecycle_event
        (parse_lifecycle_event initialState (lineQueueJoin "NameA" "A") "k").1
        (lineDisconnect "A") "k").1) "k" =
      { getStates ((parse_lifecycle_event initialState (lineQueueJoin "NameA" "A") "k").1) "k" with
          players_disconnected_pre := insert "A" (getStates ((parse_lifecycle_event initialState (lineQueueJoin "NameA" "A") "k").1) "k").players_disconnected_pre }) ∧
    (getStates ((parse_lifecycle_event
        (parse_lifecycle_event
          (parse_lifecycle_event initialState (lineQueueJoin "NameA" "A") "k").1
          (linePlayerJoined "A") "k").1
        (lineDisconnect "A") "k").1) "k" =
      { getStates ((parse_lifecycle_event
            (parse_lifecycle_event initialState (lineQueueJoin "NameA" "A") "k").1
            (linePlayerJoined "A") "k").1) "k" with
          players_disconnected_post := insert "A" (getStates ((parse_lifecycle_event (parse_lifecycle_event initialState (lineQueueJoin "NameA" "A") "k").1 (linePlayerJoined "A") "k").1) "k").players_disconnected_post }) :=
  ⟨(c2_pattern3_disambiguation _ (lineDisconnect "A") "k" "A" rfl rfl rfl).2.1
      (by decide) (by decide),
   (c2_pattern3_disambiguation _ (lineDisconnect "A") "k" "A" rfl rfl rfl).1
      (by decide)⟩

/-- C3: for a line failing patterns 1-3 but matching the pattern-4 disconnect
regex with identifier P, a DisconnectPreJoin is produced — P added to
`players_disconnected_pre` and the counters recomputed — exactly when P is
queued and has never joined; otherwise nothing changes and no notification is
produced. -/
theorem c3_pattern4_fallback (st : ParserState) (m : LineMatch) (key P : String)
    (h1 : m.queue_join = none) (h2 : m.player_joined = none)
    (h3 : m.disconnect_post_join = none) (h4 : m.disconnect_pre_join = some P) :
    (P ∈ (getStates st key).players_queued ∧ P ∉ (getStates st key).players_joined →
      getStates ((parse_lifecycle_event st m key).1) key =
        { getStates st key with
            players_disconnected_pre := insert P (getStates st key).players_disconnected_pre } ∧
      getCountsAt ((parse_lifecycle_event st m key).1) key =
        compute_counts { getStates st key with
            players_disconnected_pre := insert P (getStates st key).players_disconnected_pre } ∧
      (parse_lifecycle_event st m key).2 = none) ∧
    (¬(P ∈ (getStates st key).players_queued ∧ P ∉ (getStates st key).players_joined) →
      getStates ((parse_lifecycle_event st m key).1) key = getStates st key ∧
      getCountsAt ((parse_lifecycle_event st m key).1) key = getCountsAt st key ∧
      (parse_lifecycle_event st m key).2 = none) := by
  refine ⟨fun hc => ⟨?_, ?_, ?_⟩, fun hc => ⟨?_, ?_, ?_⟩⟩
  · rw [parse_states_eq]; simp [parseStep, h1, h2, h3, h4, hc]
  · rw [parse_counts_eq]; simp [parseStep, h1, h2, h3, h4, hc]
  · rw [parse_snd_eq]; simp [parseStep, h1, h2, h3, h4, hc]
  · rw [parse_states_eq]; simp [parseStep, h1, h2, h3, h4, hc]
  · rw [parse_counts_eq]; simp [parseStep, h1, h2, h3, h4, hc]
  · rw [parse_snd_eq]; simp [parseStep, h1, h2, h3, h4, hc]

/-- C3 witness: after QueueJoin(A), a PS5-tagged channel-close line for A is
accepted as DisconnectPreJoin with recomputed counters, and the same line
for the never-seen player Z changes neither sets nor counters. -/
theorem c3_pattern4_fallback_witness :
    (getStates ((parse_lifecycle_event
        (parse_lifecycle_event initialState (lineQueueJoin "NameA" "A") "k").1
        (lineDisconnectPS5 "A") "k").1) "k" =
      { getStates ((parse_lifecycle_event initialState (lineQueueJoin "NameA" "A") "k").1) "k" with
          players_disconnected_pre := insert "A" (getStates ((parse_lifecycle_event initialState (lineQueueJoin "NameA" "A") "k").1) "k").players_disconnected_pre }) ∧
    (getStates ((parse_lifecycle_event
        (parse_lifecycle_event initialState (lineQueueJoin "NameA" "A") "k").1
        (lineDisconnectPS5 "Z") "k").1) "k" =
      getStates ((parse_lifecycle_event initialState (lineQueueJoin "NameA" "A") "k").1) "k") :=
  ⟨((c3_pattern4_fallback _ (lineDisconnectPS5 "A") "k" "A" rfl rfl rfl rfl).1
      (by decide)).1,
   ((c3_pattern4_fallback _ (lineDisconnectPS5 "Z") "k" "Z" rfl rfl rfl rfl).2
      (by decide)).1⟩

/-- C9: a line matching no pattern — and, given the regex guarantees
(`regexWF`), equally a line whose matched pattern yielded an empty
identifier capture — changes neither the sets nor the stored counters of the
key, produces no notification and no error (the function is total). -/
theorem c9_unmatched_line_no_effect (st : ParserState) (m : LineMatch) (key : String)
    (hwf : regexWF m = true)
    (h : lineNoMatch m = true ∨ extractedIdFalsy m = true) :
    getStates ((parse_lifecycle_event st m key).1) key = getStates st key ∧
    getCountsAt ((parse_lifecycle_event st m key).1) key = getCountsAt st key ∧
    (parse_lifecycle_event st m key).2 = none := by
  rcases h with h | h
  · simp only [lineNoMatch, Bool.and_eq_true, Option.isNone_iff_eq_none] at h
    obtain ⟨⟨⟨hq, hp⟩, hd⟩, hr⟩ := h
    refine ⟨?_, ?_, ?_⟩
    · rw [parse_states_eq]; simp [parseStep, hq, hp, hd, hr]
    · rw [parse_counts_eq]; simp [parseStep, hq, hp, hd, hr]
    · rw [parse_snd_eq]; simp [parseStep, hq, hp, hd, hr]
  · rcases hq : m.queue_join with _ | qm
    · rcases hp : m.player_joined with _ | s
      · rcases hd : m.disconnect_post_join with _ | s
        · rcases hr : m.disconnect_pre_join with _ | s
          · refine ⟨?_, ?_, ?_⟩
            · rw [parse_states_eq]; simp [parseStep, hq, hp, hd, hr]
            · rw [parse_counts_eq]; simp [parseStep, hq, hp, hd, hr]
            · rw [parse_snd_eq]; simp [parseStep, hq, hp, hd, hr]
          · exfalso
            simp only [extractedIdFalsy, hq, hp, hd, hr] at h
            simp only [regexWF, hq, hp, hd, hr, Bool.and_eq_true] at hwf
            rw [h] at hwf
            simp at hwf
        · exfalso
          simp only [extractedIdFalsy, hq, hp, hd] at h
          simp only [regexWF, hq, hp, hd, Bool.and_eq_true] at hwf
          rw [h] at hwf
          simp at hwf
      · exfalso
        simp only [extractedIdFalsy, hq, hp] at h
        simp only [regexWF, hq, hp, Bool.and_eq_true] at hwf
        rw [h] at hwf
        simp at hwf
    · simp only [extractedIdFalsy, hq] at h
      refine ⟨?_, ?_, ?_⟩ <;>
        [rw [parse_states_eq]; rw [parse_counts_eq]; rw [parse_snd_eq]] <;>
        · simp only [parseStep, hq]
          rcases hpid : pyOr qm.ps5 qm.eos with _ | pid
          · simp
          · simp only [hpid] at h
            have hp2 : pid = "" := by simpa using h
            simp [hp2]

/-- C9 witness: a line matching none of the four patterns, applied to a
fresh instance, leaves the key's sets and counters at their empty values and
produces nothing. -/
theorem c9_unmatched_line_no_effect_witness :
    getStates ((parse_lifecycle_event initialState
        { queue_join := none, player_joined := none,
          disconnect_post_join := none, disconnect_pre_join := none } "k").1) "k"
      = getStates initialState "k" ∧
    getCountsAt ((parse_lifecycle_event initialState
        { queue_join := none, player_joined := none,
          disconnect_post_join := none, disconnect_pre_join := none } "k").1) "k"
      = getCountsAt initialState "k" ∧
    (parse_lifecycle_event initialState
        { queue_join := none, player_joined := none,
          disconnect_post_join := none, disconnect_pre_join := none } "k").2 = none :=
  c9_unmatched_line_no_effect initialState _ "k" (by decide) (Or.inl (by decide))

/-- C4 counterexample: a duplicate PlayerJoined line — the player is already
a member of `players_joined` — still returns a join notification, refuting
the claim that duplicate/idempotent events return no notification (the
player-joined branch has no membership check and always returns the embed). -/
theorem c4_duplicate_join_still_notifies :
    "A" ∈ (getStates ((parse_lifecycle_event initialState
        (linePlayerJoined "A") "k").1) "k").players_joined ∧
    (parse_lifecycle_event
        (parse_lifecycle_event initialState (linePlayerJoined "A") "k").1
        (linePlayerJoined "A") "k").2 ≠ none := by
  decide

/-- C4 amended: `parse_lifecycle_event` returns a notification exactly when
the line is classified PlayerJoined (a join-kind payload) or
DisconnectPostJoin (a leave-kind payload), duplicates included; QueueJoin,
DisconnectPreJoin, unknown disconnects and non-matching lines return none. -/
theorem c4_notification_exactness (st : ParserState) (m : LineMatch) (key : String) :
    ((parse_lifecycle_event st m key).2 ≠ none ↔
      (m.queue_join = none ∧
        (m.player_joined ≠ none ∨
          (m.player_joined = none ∧ ∃ P, m.disconnect_post_join = some P ∧
            P ∈ (getStates st key).players_joined)))) ∧
    (∀ n, (parse_lifecycle_event st m key).2 = some n →
      ((n.event_type = EventKind.player_join ↔ m.player_joined ≠ none) ∧
       (n.event_type = EventKind.player_leave ↔ m.player_joined = none))) := by
  obtain ⟨qj, pj, dpost, dpre⟩ := m
  constructor
  · rw [parse_snd_eq]
    rcases qj with _ | ⟨qn, _ | s2, _ | s3⟩ <;> rcases pj with _ | pjid <;>
      rcases dpost with _ | dpid <;> rcases dpre with _ | rpid <;>
      simp only [parseStep, pyOr] <;> (try split_ifs) <;>
      (try simp_all) <;> (try split_ifs) <;> (try simp_all)
  · intro n hn
    rw [parse_snd_eq] at hn
    rcases qj with _ | ⟨qn, _ | s2, _ | s3⟩ <;> rcases pj with _ | pjid <;>
      rcases dpost with _ | dpid <;> rcases dpre with _ | rpid <;>
      simp only [parseStep, pyOr] at hn <;> (try split_ifs at hn) <;>
      (try simp_all [_create_join_embed, _create_leave_embed]) <;>
      (try split_ifs at hn) <;>
      (try subst hn) <;> (try simp)

/-- C4 witness: on a fresh instance a PlayerJoined line yields a
notification. -/
theorem c4_notification_exactness_witness :
    (parse_lifecycle_event initialState (linePlayerJoined "A") "k").2 ≠ none :=
  (c4_notification_exactness initialState (linePlayerJoined "A") "k").1.mpr
    ⟨rfl, Or.inl (by decide)⟩

/-- C5: `get_live_counts` is total — a never-seen key reads as zero counters
— and reading changes no observable state; after `reset_server_counts` the
key reads as zero again, the next line for the key behaves exactly as on a
fresh instance, and resetting a key a fresh instance never had is a no-op. -/
theorem c5_get_live_counts_and_reset (st : ParserState) (key : String) (m : LineMatch) :
    (st.server_counts key = none → (get_live_counts st key).1 = zeroCounts) ∧
    (∀ k, getStates (get_live_counts st key).2 k = getStates st k ∧
          getCountsAt (get_live_counts st key).2 k = getCountsAt st k) ∧
    (get_live_counts (reset_server_counts st key) key).1 = zeroCounts ∧
    reset_server_counts initialState key = initialState ∧
    getStates ((parse_lifecycle_event (reset_server_counts st key) m key).1) key
      = getStates ((parse_lifecycle_event initialState m key).1) key ∧
    getCountsAt ((parse_lifecycle_event (reset_server_counts st key) m key).1) key
      = getCountsAt ((parse_lifecycle_event initialState m key).1) key ∧
    (parse_lifecycle_event (reset_server_counts st key) m key).2
      = (parse_lifecycle_event initialState m key).2 := by
  refine ⟨fun h => ?_, fun k => ⟨getStates_get_live_counts st key k,
      getCountsAt_get_live_counts st key k⟩, ?_, reset_initialState key, ?_, ?_, ?_⟩
  · rw [get_live_counts_fst, getCountsAt, h]; rfl
  · rw [get_live_counts_fst, getCountsAt_reset_self]
  · rw [parse_states_eq, parse_states_eq, getStates_reset_self, getCountsAt_reset_self]
    rfl
  · rw [parse_counts_eq, parse_counts_eq, getStates_reset_self, getCountsAt_reset_self]
    rfl
  · rw [parse_snd_eq, parse_snd_eq, getStates_reset_self, getCountsAt_reset_self]
    rfl

/-- C5 witness: on a fresh instance the accessor returns zero counters for a
never-seen key. -/
theorem c5_get_live_counts_and_reset_witness :
    (get_live_counts initialState "k").1 = zeroCounts :=
  (c5_get_live_counts_and_reset initialState "k"
    { queue_join := none, player_joined := none,
      disconnect_post_join := none, disconnect_pre_join := none }).1 rfl

/-- Both stored counters of every key are non-negative. -/
def countsInv (st : ParserState) : Prop := ∀ k, countsOK (getCountsAt st k)

theorem countsInv_applyOp (st : ParserState) (op : Op) (h : countsInv st) :
    countsInv (applyOp st op) := by
  rcases op with ⟨m, key⟩ | key | key <;> intro k
  · by_cases hkk : k = key
    · subst hkk
      show countsOK (getCountsAt (parse_lifecycle_event st m k).1 k)
      rw [parse_counts_eq]
      exact step_countsOK _ _ _ (h k)
    · show countsOK (getCountsAt (parse_lifecycle_event st m key).1 k)
      rw [getCountsAt_eq_of_raw _ st k (parse_frame st m key k hkk).2]
      exact h k
  · by_cases hkk : k = key
    · subst hkk
      show countsOK (getCountsAt (reset_server_counts st k) k)
      rw [getCountsAt_reset_self]
      exact ⟨le_refl 0, le_refl 0⟩
    · show countsOK (getCountsAt (reset_server_counts st key) k)
      rw [getCountsAt_eq_of_raw _ st k (server_counts_reset_of_ne st key k hkk)]
      exact h k
  · show countsOK (getCountsAt (get_live_counts st key).2 k)
    rw [getCountsAt_get_live_counts]
    exact h k

theorem countsInv_runOpsFrom (st : ParserState) (ops : List Op) (h : countsInv st) :
    countsInv (runOpsFrom st ops) := by
  induction ops generalizing st with
  | nil => exact h
  | cons op t ih => exact ih (applyOp st op) (countsInv_applyOp st op h)

/-- C6: after any sequence of calls on a fresh instance — lines parsed,
resets, count reads, over any keys — both stored counters of every key are
non-negative. -/
theorem c6_counters_nonneg (ops : List Op) (key : String) :
    0 ≤ (getCountsAt (runOps ops) key).queue_count ∧
    0 ≤ (getCountsAt (runOps ops) key).player_count :=
  countsInv_runOpsFrom initialState ops (fun _ => ⟨le_refl 0, le_refl 0⟩) key

theorem states_mono_applyOp (st : ParserState) (op : Op) (key : String)
    (h : op ≠ Op.reset key) :
    statesSubset (getStates st key) (getStates (applyOp st op) key) := by
  rcases op with ⟨m, k2⟩ | k2 | k2
  · by_cases hkk : key = k2
    · subst hkk
      show statesSubset (getStates st key) (getStates (parse_lifecycle_event st m key).1 key)
      rw [parse_states_eq]
      exact step_mono _ _ _
    · show statesSubset (getStates st key) (getStates (parse_lifecycle_event st m k2).1 key)
      rw [getStates_eq_of_raw _ st key (parse_frame st m k2 key hkk).1]
      exact statesSubset_refl _
  · have hkk : key ≠ k2 := fun e => h (by rw [e])
    show statesSubset (getStates st key) (getStates (reset_server_counts st k2) key)
    rw [getStates_eq_of_raw _ st key (player_states_reset_of_ne st k2 key hkk)]
    exact statesSubset_refl _
  · show statesSubset (getStates st key) (getStates (get_live_counts st k2).2 key)
    rw [getStates_get_live_counts]
    exact statesSubset_refl _

theorem states_mono_runOpsFrom (st : ParserState) (ops : List Op) (key : String)
    (h : Op.reset key ∉ ops) :
    statesSubset (getStates st key) (getStates (runOpsFrom st ops) key) := by
  induction ops generalizing st with
  | nil => exact statesSubset_refl _
  | cons op t ih =>
    have h1 : op ≠ Op.reset key := fun e => h (e ▸ List.mem_cons_self op t)
    have h2 : Op.reset key ∉ t := fun hm => h (List.mem_cons_of_mem op hm)
    exact statesSubset_trans _ _ _ (states_mono_applyOp st op key h1) (ih (applyOp st op) h2)

/-- C7: within one epoch of a key — no reset of that key in the sequence —
membership of each of the four sets is monotonic: once present, a player id
survives any further sequence of calls. -/
theorem c7_set_membership_monotonic (st : ParserState) (ops : List Op) (key P : String)
    (h : Op.reset key ∉ ops) :
    (P ∈ (getStates st key).players_queued →
       P ∈ (getStates (runOpsFrom st ops) key).players_queued) ∧
    (P ∈ (getStates st key).players_joined →
       P ∈ (getStates (runOpsFrom st ops) key).players_joined) ∧
    (P ∈ (getStates st key).players_disconnected_pre →
       P ∈ (getStates (runOpsFrom st ops) key).players_disconnected_pre) ∧
    (P ∈ (getStates st key).players_disconnected_post →
       P ∈ (getStates (runOpsFrom st ops) key).players_disconnected_post) := by
  have hs := states_mono_runOpsFrom st ops key h
  exact ⟨fun hp => hs.1 hp, fun hp => hs.2.1 hp,
         fun hp => hs.2.2.1 hp, fun hp => hs.2.2.2 hp⟩

/-- C7 witness: after PlayerJoined(A), player A stays in `players_joined`
through a later disconnect line for A, a reset of a different key and a
count read. -/
theorem c7_set_membership_monotonic_witness :
    "A" ∈ (getStates (runOpsFrom
        (parse_lifecycle_event initialState (linePlayerJoined "A") "k").1
        [Op.parseLine (lineDisconnect "A") "k", Op.reset "other", Op.readCounts "k"])
        "k").players_joined :=
  (c7_set_membership_monotonic
      (parse_lifecycle_event initialState (linePlayerJoined "A") "k").1
      [Op.parseLine (lineDisconnect "A") "k", Op.reset "other", Op.readCounts "k"]
      "k" "A" (by decide)).2.1 (by decide)

/-- C8: processing the same log line twice in succession leaves the instance
state — every key's sets and stored counters — exactly as after the first
application. -/
theorem c8_same_line_twice_idempotent (st : ParserState) (m : LineMatch) (key : String) :
    (parse_lifecycle_event (parse_lifecycle_event st m key).1 m key).1
      = (parse_lifecycle_event st m key).1 := by
  have h1 := parse_shape st m key
  have h2 := parse_shape (parse_lifecycle_event st m key).1 m key
  have hid := step_idem (getStates st key) (getCountsAt st key) m
  apply parserStateExt
  · funext k
    by_cases hkk : k = key
    · subst hkk
      rw [h2.2.2.2.2.1, h2.2.1, h1.1, h1.2.1, hid.2, ← h1.2.1, ← h1.2.2.2.2.1]
    · exact ((h2.2.2.2.2.2) k hkk).2
  · funext k
    by_cases hkk : k = key
    · subst hkk
      rw [h2.2.2.2.1, h2.1, h1.1, h1.2.1, hid.1, ← h1.1, ← h1.2.2.2.1]
    · exact ((h2.2.2.2.2.2) k hkk).1

/-- C10: processing a line for one key, or resetting one key, leaves the raw
dictionary entries — sets and stored counters — of every other key
untouched. -/
theorem c10_per_key_isolation (st : ParserState) (m : LineMatch) (k k2 : String)
    (h : k ≠ k2) :
    ((parse_lifecycle_event st m k).1).player_states k2 = st.player_states k2 ∧
    ((parse_lifecycle_event st m k).1).server_counts k2 = st.server_counts k2 ∧
    (reset_server_counts st k).player_states k2 = st.player_states k2 ∧
    (reset_server_counts st k).server_counts k2 = st.server_counts k2 :=
  ⟨(parse_frame st m k k2 (Ne.symm h)).1, (parse_frame st m k k2 (Ne.symm h)).2,
   player_states_reset_of_ne st k k2 (Ne.symm h),
   server_counts_reset_of_ne st k k2 (Ne.symm h)⟩

/-- C10 witness: a queue-join line for key a and a reset of key a do not
change key b — both keys read from a state where key b has seen a join. -/
theorem c10_per_key_isolation_witness :
    ((parse_lifecycle_event (parse_lifecycle_event initialState
        (linePlayerJoined "A") "b").1 (lineQueueJoin "NameA" "A") "a").1).player_states "b"
      = ((parse_lifecycle_event initialState (linePlayerJoined "A") "b").1).player_states "b" :=
  (c10_per_key_isolation (parse_lifecycle_event initialState (linePlayerJoined "A") "b").1
    (lineQueueJoin "NameA" "A") "a" "b" (by decide)).1
